import Mathlib

/-!
Shallow embedding of the mangonel RV32I instruction codec
(`src/utils/isa.py`, `src/utils/constants.py`) and of the register file
(`src/core/regfile.py`), with theorems checking the specification's
claims against it.

Python integers are unbounded and signed.  Nonnegative bit patterns are
modelled as `Nat` (Lean's `&&&`, `|||`, `<<<`, `>>>` on `Nat` agree with
Python's operators on nonnegative ints) and signed immediate fields as
`Int`.  Every mask in the source is an all-ones pattern `2^k - 1`, so
Python's `x & (2^k - 1)` on an arbitrary int is `x mod 2^k` (always
nonnegative), and Python's arithmetic right shift `x >> s` is floor
division by `2^s`, which is Lean's `Int` division `/` (Euclidean
division coincides with floor division for a positive divisor).
-/

namespace Mangonel

/-! ### Constants from `src/utils/constants.py` -/

def XLEN : Nat := 32
def NUM_REGS : Nat := 32
def REG_WIDTH : Nat := 32
def INST_WIDTH : Nat := 32

def OPCODE_R_TYPE : Nat := 0b0110011

def OPCODE_ADDI  : Nat := 0b0010011
def OPCODE_SLLI  : Nat := 0b0010011
def OPCODE_SLTI  : Nat := 0b0010011
def OPCODE_SLTIU : Nat := 0b0010011
def OPCODE_XORI  : Nat := 0b0010011
def OPCODE_SRLI  : Nat := 0b0010011
def OPCODE_SRAI  : Nat := 0b0010011
def OPCODE_ORI   : Nat := 0b0010011
def OPCODE_ANDI  : Nat := 0b0010011

def OPCODE_LOAD : Nat := 0b0000011
def OPCODE_STORE : Nat := 0b0100011
def OPCODE_BRANCH : Nat := 0b1100011
def OPCODE_JAL  : Nat := 0b1101111
def OPCODE_JALR : Nat := 0b1100111
def OPCODE_LUI   : Nat := 0b0110111
def OPCODE_AUIPC : Nat := 0b0010111

def OPCODE_MASK : Nat := 0x7F
def OPCODE_SHIFT : Nat := 0
def RD_MASK : Nat := 0x1F
def RD_SHIFT : Nat := 7
def FUNCT3_MASK : Nat := 0x7
def FUNCT3_SHIFT : Nat := 12
def RS1_MASK : Nat := 0x1F
def RS1_SHIFT : Nat := 15
def RS2_MASK : Nat := 0x1F
def RS2_SHIFT : Nat := 20
def FUNCT7_MASK : Nat := 0x7F
def FUNCT7_SHIFT : Nat := 25

def IMM_I_MASK : Nat := 0xFFF
def IMM_I_SHIFT : Nat := 20
def IMM_S_HI_MASK : Nat := 0x7F
def IMM_S_HI_SHIFT : Nat := 25
def IMM_S_LO_MASK : Nat := 0x1F
def IMM_S_LO_SHIFT : Nat := 7
def IMM_B_BIT11_MASK : Nat := 0x1
def IMM_B_BIT11_SHIFT : Nat := 7
def IMM_B_BITS10_5_MASK : Nat := 0x3F
def IMM_B_BITS10_5_SHIFT : Nat := 25
def IMM_B_BITS4_1_MASK : Nat := 0xF
def IMM_B_BITS4_1_SHIFT : Nat := 8
def IMM_B_BIT12_MASK : Nat := 0x1
def IMM_B_BIT12_SHIFT : Nat := 31
def IMM_U_MASK : Nat := 0xFFFFF
def IMM_U_SHIFT : Nat := 12
def IMM_J_BIT11_MASK : Nat := 0x1
def IMM_J_BIT11_SHIFT : Nat := 20
def IMM_J_BITS19_12_MASK : Nat := 0xFF
def IMM_J_BITS19_12_SHIFT : Nat := 12
def IMM_J_BITS10_1_MASK : Nat := 0x3FF
def IMM_J_BITS10_1_SHIFT : Nat := 21
def IMM_J_BIT20_MASK : Nat := 0x1
def IMM_J_BIT20_SHIFT : Nat := 31

def FUNCT3_ADD_SUB : Nat := 0b000
def FUNCT3_SLL     : Nat := 0b001
def FUNCT3_SLT     : Nat := 0b010
def FUNCT3_SLTU    : Nat := 0b011
def FUNCT3_XOR     : Nat := 0b100
def FUNCT3_SRL_SRA : Nat := 0b101
def FUNCT3_OR      : Nat := 0b110
def FUNCT3_AND     : Nat := 0b111

def FUNCT3_LB  : Nat := 0b000
def FUNCT3_LH  : Nat := 0b001
def FUNCT3_LW  : Nat := 0b010
def FUNCT3_LBU : Nat := 0b100
def FUNCT3_LHU : Nat := 0b101

def FUNCT3_SB : Nat := 0b000
def FUNCT3_SH : Nat := 0b001
def FUNCT3_SW : Nat := 0b010

def FUNCT3_BEQ  : Nat := 0b000
def FUNCT3_BNE  : Nat := 0b001
def FUNCT3_BLT  : Nat := 0b100
def FUNCT3_BGE  : Nat := 0b101
def FUNCT3_BLTU : Nat := 0b110
def FUNCT3_BGEU : Nat := 0b111

def FUNCT7_NORMAL : Nat := 0b0000000
def FUNCT7_ALT    : Nat := 0b0100000

def CTRL_REG_WRITE_YES : Nat := 1
def CTRL_REG_WRITE_NO : Nat := 0

/-! ### Python integer operations on signed values -/

/-- Python `x & m` for an integer `x` and an all-ones mask `m = 2^k - 1`:
equals `x mod (m + 1)`, a nonnegative value (Python `&` acts on the
two's-complement representation of the unbounded int). -/
def pyAnd (x : Int) (m : Nat) : Nat := (x % ((m : Int) + 1)).toNat

/-- Python `x >> s` (arithmetic shift) on an integer: floor division by
`2^s`; Lean's `Int` division is floor division here since the divisor is
positive. -/
def pyShr (x : Int) (s : Nat) : Int := x / (2 : Int) ^ s

/-! ### Instruction classes from `src/utils/isa.py` -/

/-- Field set of `RType.__init__`.  Register and function fields are
unsigned bit patterns. -/
structure RType where
  rd : Nat
  rs1 : Nat
  rs2 : Nat
  funct3 : Nat
  funct7 : Nat
  opcode : Nat

/-- `RType.encode`. -/
def RType.encode (r : RType) : Nat :=
  (r.opcode
    ||| ((r.rd &&& RD_MASK) <<< RD_SHIFT)
    ||| ((r.funct3 &&& FUNCT3_MASK) <<< FUNCT3_SHIFT)
    ||| ((r.rs1 &&& RS1_MASK) <<< RS1_SHIFT)
    ||| ((r.rs2 &&& RS2_MASK) <<< RS2_SHIFT)
    ||| ((r.funct7 &&& FUNCT7_MASK) <<< FUNCT7_SHIFT)) &&& 0xFFFFFFFF

/-- Field set of `IType.__init__`; the immediate is a signed integer. -/
structure IType where
  rd : Nat
  rs1 : Nat
  imm : Int
  funct3 : Nat
  opcode : Nat

/-- `IType.encode`. -/
def IType.encode (i : IType) : Nat :=
  (i.opcode
    ||| ((i.rd &&& RD_MASK) <<< RD_SHIFT)
    ||| ((i.funct3 &&& FUNCT3_MASK) <<< FUNCT3_SHIFT)
    ||| ((i.rs1 &&& RS1_MASK) <<< RS1_SHIFT)
    ||| ((pyAnd i.imm IMM_I_MASK) <<< IMM_I_SHIFT)) &&& 0xFFFFFFFF

/-- Field set of `SType.__init__`. -/
structure SType where
  rs1 : Nat
  rs2 : Nat
  imm : Int
  funct3 : Nat
  opcode : Nat

/-- `SType.encode`. -/
def SType.encode (s : SType) : Nat :=
  (s.opcode
    ||| ((pyAnd s.imm IMM_S_LO_MASK) <<< IMM_S_LO_SHIFT)
    ||| ((s.funct3 &&& FUNCT3_MASK) <<< FUNCT3_SHIFT)
    ||| ((s.rs1 &&& RS1_MASK) <<< RS1_SHIFT)
    ||| ((s.rs2 &&& RS2_MASK) <<< RS2_SHIFT)
    ||| ((pyAnd (pyShr s.imm 5) IMM_S_HI_MASK) <<< IMM_S_HI_SHIFT)) &&& 0xFFFFFFFF

/-- Field set of `BType.__init__`. -/
structure BType where
  rs1 : Nat
  rs2 : Nat
  imm : Int
  funct3 : Nat
  opcode : Nat

/-- `BType.encode`, operation for operation as in the source:
the piece fed into the `IMM_B_BIT11` slot is `self.imm & 0x1`, and the
piece fed into the `IMM_B_BIT12` slot is `(self.imm >> 11) & 0x1`. -/
def BType.encode (b : BType) : Nat :=
  (b.opcode
    ||| ((pyAnd b.imm IMM_B_BIT11_MASK) <<< IMM_B_BIT11_SHIFT)
    ||| ((pyAnd (pyShr b.imm 1) IMM_B_BITS4_1_MASK) <<< IMM_B_BITS4_1_SHIFT)
    ||| ((b.funct3 &&& FUNCT3_MASK) <<< FUNCT3_SHIFT)
    ||| ((b.rs1 &&& RS1_MASK) <<< RS1_SHIFT)
    ||| ((b.rs2 &&& RS2_MASK) <<< RS2_SHIFT)
    ||| ((pyAnd (pyShr b.imm 5) IMM_B_BITS10_5_MASK) <<< IMM_B_BITS10_5_SHIFT)
    ||| ((pyAnd (pyShr b.imm 11) IMM_B_BIT12_MASK) <<< IMM_B_BIT12_SHIFT)) &&& 0xFFFFFFFF

/-- Field set of `UType.__init__`. -/
structure UType where
  rd : Nat
  imm : Int
  opcode : Nat

/-- `UType.encode`. -/
def UType.encode (u : UType) : Nat :=
  (u.opcode
    ||| ((u.rd &&& RD_MASK) <<< RD_SHIFT)
    ||| ((pyAnd u.imm IMM_U_MASK) <<< IMM_U_SHIFT)) &&& 0xFFFFFFFF

/-- Field set of `JType.__init__`. -/
structure JType where
  rd : Nat
  imm : Int
  opcode : Nat

/-- `JType.encode`, operation for operation as in the source: the piece
fed into the `IMM_J_BITS19_12` slot is `self.imm & 0xFF`. -/
def JType.encode (j : JType) : Nat :=
  (j.opcode
    ||| ((j.rd &&& RD_MASK) <<< RD_SHIFT)
    ||| ((pyAnd j.imm IMM_J_BITS19_12_MASK) <<< IMM_J_BITS19_12_SHIFT)
    ||| ((pyAnd (pyShr j.imm 11) IMM_J_BIT11_MASK) <<< IMM_J_BIT11_SHIFT)
    ||| ((pyAnd (pyShr j.imm 1) IMM_J_BITS10_1_MASK) <<< IMM_J_BITS10_1_SHIFT)
    ||| ((pyAnd (pyShr j.imm 20) IMM_J_BIT20_MASK) <<< IMM_J_BIT20_SHIFT)) &&& 0xFFFFFFFF

/-! ### Decoding helpers from `src/utils/isa.py` -/

def extract_opcode (instr : Nat) : Nat := (instr >>> OPCODE_SHIFT) &&& OPCODE_MASK

def extract_rd (instr : Nat) : Nat := (instr >>> RD_SHIFT) &&& RD_MASK

def extract_rs1 (instr : Nat) : Nat := (instr >>> RS1_SHIFT) &&& RS1_MASK

def extract_rs2 (instr : Nat) : Nat := (instr >>> RS2_SHIFT) &&& RS2_MASK

def extract_funct3 (instr : Nat) : Nat := (instr >>> FUNCT3_SHIFT) &&& FUNCT3_MASK

def extract_funct7 (instr : Nat) : Nat := (instr >>> FUNCT7_SHIFT) &&& FUNCT7_MASK

/-- `sign_extend` from `src/utils/constants.py`.  Every call site passes a
nonnegative extracted bit pattern, so `value` is a `Nat`; the result is a
signed integer.  Python's `if value & sign_bit:` truthiness test is
`≠ 0`, and `value |= ~mask` is `Int.lor value (Int.lnot mask)`. -/
def sign_extend (value : Nat) (nbits : Nat) : Int :=
  let sign_bit := 1 <<< (nbits - 1)
  let mask := (1 <<< nbits) - 1
  let v := value &&& mask
  if v &&& sign_bit ≠ 0 then Int.lor (v : Int) (Int.lnot (mask : Int)) else (v : Int)

def extract_imm_i (instr : Nat) : Int :=
  sign_extend ((instr >>> IMM_I_SHIFT) &&& IMM_I_MASK) 12

def extract_imm_s (instr : Nat) : Int :=
  let imm_lo := (instr >>> IMM_S_LO_SHIFT) &&& IMM_S_LO_MASK
  let imm_hi := (instr >>> IMM_S_HI_SHIFT) &&& IMM_S_HI_MASK
  sign_extend ((imm_hi <<< 5) ||| imm_lo) 12

def extract_imm_b (instr : Nat) : Int :=
  let bit11 := (instr >>> IMM_B_BIT11_SHIFT) &&& IMM_B_BIT11_MASK
  let bits10_5 := (instr >>> IMM_B_BITS10_5_SHIFT) &&& IMM_B_BITS10_5_MASK
  let bits4_1 := (instr >>> IMM_B_BITS4_1_SHIFT) &&& IMM_B_BITS4_1_MASK
  let bit12 := (instr >>> IMM_B_BIT12_SHIFT) &&& IMM_B_BIT12_MASK
  sign_extend ((bit12 <<< 12) ||| (bit11 <<< 11) ||| (bits10_5 <<< 5) ||| (bits4_1 <<< 1)) 13

def extract_imm_u (instr : Nat) : Nat := (instr >>> IMM_U_SHIFT) &&& IMM_U_MASK

def extract_imm_j (instr : Nat) : Int :=
  let bits19_12 := (instr >>> IMM_J_BITS19_12_SHIFT) &&& IMM_J_BITS19_12_MASK
  let bit11 := (instr >>> IMM_J_BIT11_SHIFT) &&& IMM_J_BIT11_MASK
  let bits10_1 := (instr >>> IMM_J_BITS10_1_SHIFT) &&& IMM_J_BITS10_1_MASK
  let bit20 := (instr >>> IMM_J_BIT20_SHIFT) &&& IMM_J_BIT20_MASK
  sign_extend ((bit20 <<< 20) ||| (bits19_12 <<< 12) ||| (bit11 <<< 11) ||| (bits10_1 <<< 1)) 21

/-! ### Decode and mnemonic resolution -/

/-- `Decoded.__init__` with its default field values. -/
structure Decoded where
  opcode : Nat := 0
  rd : Nat := 0
  rs1 : Nat := 0
  rs2 : Nat := 0
  funct3 : Nat := 0
  funct7 : Nat := 0
  imm : Int := 0
  type : String := ""
  mnemonic : String := ""
deriving DecidableEq

/-- Entries of the `mnemonic_map` dict literal of `get_mnemonic`, in
source order.  Note the key `(OPCODE_SRLI, FUNCT3_SRL_SRA, 0)` of the
`"SRLI"` entry and the key `(OPCODE_SRAI, FUNCT3_SRL_SRA, 0)` of the
`"SRAI"` entry are the same numeric triple `(0b0010011, 0b101, 0)`. -/
def mnemonic_map : List ((Nat × Nat × Nat) × String) := [
  ((OPCODE_R_TYPE, FUNCT3_ADD_SUB, FUNCT7_NORMAL), "ADD"),
  ((OPCODE_R_TYPE, FUNCT3_ADD_SUB, FUNCT7_ALT), "SUB"),
  ((OPCODE_R_TYPE, FUNCT3_SLL, FUNCT7_NORMAL), "SLL"),
  ((OPCODE_R_TYPE, FUNCT3_SLT, FUNCT7_NORMAL), "SLT"),
  ((OPCODE_R_TYPE, FUNCT3_SLTU, FUNCT7_NORMAL), "SLTU"),
  ((OPCODE_R_TYPE, FUNCT3_XOR, FUNCT7_NORMAL), "XOR"),
  ((OPCODE_R_TYPE, FUNCT3_SRL_SRA, FUNCT7_NORMAL), "SRL"),
  ((OPCODE_R_TYPE, FUNCT3_SRL_SRA, FUNCT7_ALT), "SRA"),
  ((OPCODE_R_TYPE, FUNCT3_OR, FUNCT7_NORMAL), "OR"),
  ((OPCODE_R_TYPE, FUNCT3_AND, FUNCT7_NORMAL), "AND"),
  ((OPCODE_ADDI, FUNCT3_ADD_SUB, 0), "ADDI"),
  ((OPCODE_SLLI, FUNCT3_SLL, 0), "SLLI"),
  ((OPCODE_SLTI, FUNCT3_SLT, 0), "SLTI"),
  ((OPCODE_SLTIU, FUNCT3_SLTU, 0), "SLTIU"),
  ((OPCODE_XORI, FUNCT3_XOR, 0), "XORI"),
  ((OPCODE_SRLI, FUNCT3_SRL_SRA, 0), "SRLI"),
  ((OPCODE_SRAI, FUNCT3_SRL_SRA, 0), "SRAI"),
  ((OPCODE_ORI, FUNCT3_OR, 0), "ORI"),
  ((OPCODE_ANDI, FUNCT3_AND, 0), "ANDI"),
  ((OPCODE_LOAD, FUNCT3_LB, 0), "LB"),
  ((OPCODE_LOAD, FUNCT3_LH, 0), "LH"),
  ((OPCODE_LOAD, FUNCT3_LW, 0), "LW"),
  ((OPCODE_LOAD, FUNCT3_LBU, 0), "LBU"),
  ((OPCODE_LOAD, FUNCT3_LHU, 0), "LHU"),
  ((OPCODE_STORE, FUNCT3_SB, 0), "SB"),
  ((OPCODE_STORE, FUNCT3_SH, 0), "SH"),
  ((OPCODE_STORE, FUNCT3_SW, 0), "SW"),
  ((OPCODE_BRANCH, FUNCT3_BEQ, 0), "BEQ"),
  ((OPCODE_BRANCH, FUNCT3_BNE, 0), "BNE"),
  ((OPCODE_BRANCH, FUNCT3_BLT, 0), "BLT"),
  ((OPCODE_BRANCH, FUNCT3_BGE, 0), "BGE"),
  ((OPCODE_BRANCH, FUNCT3_BLTU, 0), "BLTU"),
  ((OPCODE_BRANCH, FUNCT3_BGEU, 0), "BGEU"),
  ((OPCODE_JAL, 0, 0), "JAL"),
  ((OPCODE_JALR, FUNCT3_ADD_SUB, 0), "JALR"),
  ((OPCODE_LUI, 0, 0), "LUI"),
  ((OPCODE_AUIPC, 0, 0), "AUIPC")]

/-- Lookup in an association list where a later binding for the same key
shadows an earlier one — the semantics of a Python dict literal with
duplicate keys. -/
def dictFind : List ((Nat × Nat × Nat) × String) → (Nat × Nat × Nat) → Option String
  | [], _ => none
  | e :: rest, k =>
    match dictFind rest k with
    | some v => some v
    | none => if e.1 = k then some e.2 else none

/-- Python `dict.get(key, default)` over the dict built from the listed
entries. -/
def dictGet (l : List ((Nat × Nat × Nat) × String)) (k : Nat × Nat × Nat) (d : String) :
    String :=
  (dictFind l k).getD d

/-- `get_mnemonic` from `src/utils/isa.py`: `funct7` is forced to 0 unless
the decoded type tag is `"R"`, then the `(opcode, funct3, funct7)` triple
is looked up with default `"UNKNOWN"`. -/
def get_mnemonic (d : Decoded) : String :=
  let funct7 := if d.type = "R" then d.funct7 else 0
  dictGet mnemonic_map (d.opcode, d.funct3, funct7) "UNKNOWN"

/-- `decode_instr` from `src/utils/isa.py`. -/
def decode_instr (instr : Nat) : Decoded :=
  let d0 : Decoded :=
    { opcode := extract_opcode instr
      rd := extract_rd instr
      rs1 := extract_rs1 instr
      rs2 := extract_rs2 instr
      funct3 := extract_funct3 instr
      funct7 := extract_funct7 instr }
  let d :=
    if d0.opcode = OPCODE_R_TYPE then
      { d0 with type := "R" }
    else if d0.opcode ∈ [OPCODE_ADDI, OPCODE_ANDI, OPCODE_ORI, OPCODE_XORI, OPCODE_SLTI,
        OPCODE_SLTIU, OPCODE_SLLI, OPCODE_SRLI, OPCODE_SRAI, OPCODE_JALR, OPCODE_LOAD] then
      { d0 with type := "I", imm := extract_imm_i instr }
    else if d0.opcode = OPCODE_STORE then
      { d0 with type := "S", imm := extract_imm_s instr }
    else if d0.opcode = OPCODE_BRANCH then
      { d0 with type := "B", imm := extract_imm_b instr }
    else if d0.opcode ∈ [OPCODE_LUI, OPCODE_AUIPC] then
      { d0 with type := "U", imm := (extract_imm_u instr : Int) }
    else if d0.opcode = OPCODE_JAL then
      { d0 with type := "J", imm := extract_imm_j instr }
    else d0
  { d with mnemonic := get_mnemonic d }

/-! ### Register file from `src/core/regfile.py` -/

/-- Register file state: the values of the `NUM_REGS` storage cells
(`self.registers`), each `REG_WIDTH` bits wide. -/
def RegFileState := Fin NUM_REGS → Nat

/-- `RegFile.read_register`: combinational read of the current state; the
`pyrtl.select` forces address 0 to read as the constant 0. -/
def read_register (s : RegFileState) (addr : Fin NUM_REGS) : Nat :=
  if addr.val = 0 then 0 else s addr

/-- `RegFile.write_register`: the conditional assignment taken at the
clock edge.  Cell `i` takes `rd_data` (truncated to the register width)
exactly when `rd_we` is asserted, `rd_addr` equals `i` and `i ≠ 0`; all
other cells keep their values. -/
def write_register (s : RegFileState) (rd_we : Nat) (rd_addr : Fin NUM_REGS)
    (rd_data : Nat) : RegFileState :=
  fun i =>
    if rd_we = CTRL_REG_WRITE_YES ∧ rd_addr = i ∧ i.val ≠ 0 then
      rd_data % 2 ^ REG_WIDTH
    else s i

/-- Write-port inputs sampled in one clock cycle. -/
structure PortInput where
  rd_we : Nat
  rd_addr : Fin NUM_REGS
  rd_data : Nat

/-- Wiring of `RegFile.create_ports` for one clock cycle: the two read
ports are combinational functions of the current state, and the next
state is produced by the synchronous write. -/
def cycle (s : RegFileState) (rs1_addr rs2_addr : Fin NUM_REGS) (inp : PortInput) :
    (Nat × Nat) × RegFileState :=
  ((read_register s rs1_addr, read_register s rs2_addr),
   write_register s inp.rd_we inp.rd_addr inp.rd_data)

/-- Clocked execution of a sequence of write-port inputs. -/
def runTrace (s : RegFileState) : List PortInput → RegFileState
  | [] => s
  | inp :: rest => runTrace (write_register s inp.rd_we inp.rd_addr inp.rd_data) rest

/-- `RegFile.get_register`: bounds-checked direct accessor.  It returns
the handle of the underlying storage cell (its index), or signals the
`ValueError` raised for an index outside `[0, NUM_REGS - 1]`. -/
def get_register (index : Int) : Except String (Fin NUM_REGS) :=
  if h : index < 0 ∨ (NUM_REGS : Int) ≤ index then
    .error "Register index out of range"
  else
    .ok ⟨index.toNat, by omega⟩

/-! ### Arithmetic helper lemmas for masks, shifts and sign extension -/

/-- All-ones masking on `Nat` is reduction modulo the next power of two. -/
lemma land_ones (x m k : Nat) (hm : m + 1 = 2 ^ k) : x &&& m = x % (m + 1) := by
  have h : m = 2 ^ k - 1 := by omega
  subst h
  rw [Nat.and_pow_two_sub_one_eq_mod]
  have h2 : 0 < 2 ^ k := pow_pos (by norm_num) k
  congr 1
  omega

/-- Masking is invariant under a prior reduction by the same modulus. -/
lemma land_mod (x m k : Nat) (hm : m + 1 = 2 ^ k) : (x % 2 ^ k) &&& m = x &&& m := by
  rw [land_ones _ _ _ hm, land_ones _ _ _ hm, hm]
  exact Nat.mod_mod_of_dvd x dvd_rfl

/-- Conjunction distributes over disjunction bitwise. -/
lemma land_lor_right (a b c : Nat) : (a ||| b) &&& c = (a &&& c) ||| (b &&& c) := by
  apply Nat.eq_of_testBit_eq
  intro i
  simp only [Nat.testBit_and, Nat.testBit_or]
  cases a.testBit i <;> cases b.testBit i <;> cases c.testBit i <;> rfl

/-- A piece shifted up by at least `k` bits has no bits below `k`. -/
lemma shl_land_ones_eq_zero (x s m k : Nat) (hm : m + 1 = 2 ^ k) (hs : k ≤ s) :
    (x <<< s) &&& m = 0 := by
  rw [land_ones _ _ _ hm, hm, Nat.shiftLeft_eq]
  have h : (2 : Nat) ^ s = 2 ^ k * 2 ^ (s - k) := by
    rw [← pow_add]
    congr 1
    omega
  rw [h]
  have h2 : x * (2 ^ k * 2 ^ (s - k)) = 2 ^ k * (x * 2 ^ (s - k)) := by ring
  rw [h2]
  exact Nat.mul_mod_right _ _

/-- Specialization of `shl_land_ones_eq_zero` to the opcode mask. -/
lemma shl_land_127 (x s : Nat) (hs : 7 ≤ s) : (x <<< s) &&& 127 = 0 :=
  shl_land_ones_eq_zero x s 127 7 (by norm_num) hs

/-- Difference of an all-ones pattern with a value below it. -/
lemma ldiff_ones (k v : Nat) (hv : v < 2 ^ k) : Nat.ldiff (2 ^ k - 1) v = 2 ^ k - 1 - v := by
  have h1 : 2 ^ k - 1 - v = 2 ^ k - (v + 1) := by omega
  rw [h1]
  apply Nat.eq_of_testBit_eq
  intro i
  rw [Nat.testBit_ldiff, Nat.testBit_two_pow_sub_one, Nat.testBit_two_pow_sub_succ hv]

/-- Python's `v | ~mask` on a value below the mask bound subtracts the
modulus. -/
lemma int_lor_lnot_ones (v k : Nat) (hv : v < 2 ^ k) :
    Int.lor (v : Int) (Int.lnot ((2 ^ k - 1 : Nat) : Int)) = (v : Int) - (2 ^ k : Nat) := by
  have h1 : Int.lnot ((2 ^ k - 1 : Nat) : Int) = Int.negSucc (2 ^ k - 1) := rfl
  have h2 : Int.lor ((v : Nat) : Int) (Int.negSucc (2 ^ k - 1)) =
      Int.negSucc (Nat.ldiff (2 ^ k - 1) v) := rfl
  rw [h1, h2, ldiff_ones k v hv, Int.negSucc_eq]
  omega

/-- Arithmetic characterization of `sign_extend`: mask to `nbits` bits, then
subtract `2 ^ nbits` exactly when the sign bit of the masked value is set. -/
lemma sign_extend_eq (value nbits : Nat) :
    sign_extend value nbits =
      if (value % 2 ^ nbits).testBit (nbits - 1)
      then ((value % 2 ^ nbits : Nat) : Int) - (2 ^ nbits : Nat)
      else ((value % 2 ^ nbits : Nat) : Int) := by
  unfold sign_extend
  simp only [Nat.shiftLeft_eq, one_mul]
  rw [Nat.and_pow_two_sub_one_eq_mod, Nat.and_two_pow]
  have hv : value % 2 ^ nbits < 2 ^ nbits := Nat.mod_lt _ (pow_pos (by norm_num) _)
  by_cases hbit : (value % 2 ^ nbits).testBit (nbits - 1)
  · rw [if_pos, if_pos hbit]
    · exact int_lor_lnot_ones _ _ hv
    · simp [hbit]
  · rw [if_neg, if_neg hbit]
    simp [hbit]

/-- Reduction of a signed value by `2 ^ n` does not change the masked field
`(x >> s) & m` when the field lies within the low `n` bits
(`m = 2 ^ k - 1`, `s + k ≤ n`). -/
lemma pyAnd_pyShr_emod (x : Int) (n s k m : Nat) (hm : (m : Int) + 1 = 2 ^ k)
    (h : s + k ≤ n) :
    pyAnd (pyShr (x % (2 : Int) ^ n) s) m = pyAnd (pyShr x s) m := by
  unfold pyAnd pyShr
  rw [hm]
  congr 1
  have h0 := Int.ediv_add_emod x ((2 : Int) ^ n)
  have hsplit : x = x % 2 ^ n + 2 ^ (n - s) * (x / 2 ^ n) * 2 ^ s := by
    have hp : (2 : Int) ^ (n - s) * 2 ^ s = 2 ^ n := by
      rw [← pow_add]
      congr 1
      omega
    linear_combination (-1 : Int) * h0 - x / 2 ^ n * hp
  have hdiv : x / (2 : Int) ^ s = x % 2 ^ n / 2 ^ s + 2 ^ (n - s) * (x / 2 ^ n) := by
    conv_lhs => rw [hsplit]
    rw [Int.add_mul_ediv_right _ _ (by positivity)]
  rw [hdiv]
  have h3 : (2 : Int) ^ (n - s) * (x / 2 ^ n) = 2 ^ (n - s - k) * (x / 2 ^ n) * 2 ^ k := by
    have hp : (2 : Int) ^ (n - s - k) * 2 ^ k = 2 ^ (n - s) := by
      rw [← pow_add]
      congr 1
      omega
    linear_combination (-(x / 2 ^ n)) * hp
  rw [h3, Int.add_mul_emod_self]

/-- Variant of `pyAnd_pyShr_emod` for an unshifted field. -/
lemma pyAnd_emod (x : Int) (n k m : Nat) (hm : (m : Int) + 1 = 2 ^ k) (h : k ≤ n) :
    pyAnd (x % (2 : Int) ^ n) m = pyAnd x m := by
  unfold pyAnd
  rw [hm]
  congr 1
  exact Int.emod_emod_of_dvd x (pow_dvd_pow 2 h)

/-! ### Claims about the register file -/

/-- C4: a write to address 0 with the write enable asserted is accepted (the
transition function is total) but leaves every cell unchanged, hence no read
on either port observes any effect; and a read of address 0 — on either
port, after any sequence of further cycles — returns 0. -/
theorem c4_zero_register_immutable :
    ∀ (s : RegFileState) (v : Nat),
      (∀ i, write_register s CTRL_REG_WRITE_YES ⟨0, by norm_num [NUM_REGS]⟩ v i = s i) ∧
      (∀ a, read_register (write_register s CTRL_REG_WRITE_YES ⟨0, by norm_num [NUM_REGS]⟩ v) a
          = read_register s a) ∧
      (∀ (tr : List PortInput) (a2 : Fin NUM_REGS) (inp : PortInput),
        (cycle (runTrace (write_register s CTRL_REG_WRITE_YES ⟨0, by norm_num [NUM_REGS]⟩ v) tr)
            ⟨0, by norm_num [NUM_REGS]⟩ a2 inp).1.1 = 0 ∧
        (cycle (runTrace (write_register s CTRL_REG_WRITE_YES ⟨0, by norm_num [NUM_REGS]⟩ v) tr)
            a2 ⟨0, by norm_num [NUM_REGS]⟩ inp).1.2 = 0) := by
  intro s v
  have hw : ∀ i, write_register s CTRL_REG_WRITE_YES ⟨0, by norm_num [NUM_REGS]⟩ v i = s i := by
    intro i
    unfold write_register
    rw [if_neg]
    rintro ⟨-, rfl, h0⟩
    exact h0 rfl
  refine ⟨hw, ?_, ?_⟩
  · intro a
    unfold read_register
    rw [hw a]
  · intro tr a2 inp
    constructor <;> simp [cycle, read_register]

/-- C5: a value written to a nonzero address is not visible on the read
ports during the writing cycle (they return the previously stored value),
becomes visible on reads from the next cycle on, and persists while no
later write to that address intervenes; a deasserted write enable leaves
the state unchanged. -/
theorem c5_write_then_read_ordering :
    ∀ (s : RegFileState) (a : Fin NUM_REGS) (v : Nat) (tr : List PortInput),
      a.val ≠ 0 → v < 2 ^ REG_WIDTH →
      (∀ p ∈ tr, ¬(p.rd_we = CTRL_REG_WRITE_YES ∧ p.rd_addr = a)) →
      ((cycle s a a ⟨CTRL_REG_WRITE_YES, a, v⟩).1.1 = s a ∧
        (cycle s a a ⟨CTRL_REG_WRITE_YES, a, v⟩).1.2 = s a ∧
        (cycle s a a ⟨CTRL_REG_WRITE_YES, a, v⟩).2 = write_register s CTRL_REG_WRITE_YES a v) ∧
      read_register (write_register s CTRL_REG_WRITE_YES a v) a = v ∧
      read_register (runTrace (write_register s CTRL_REG_WRITE_YES a v) tr) a = v ∧
      (∀ we d, we ≠ CTRL_REG_WRITE_YES → ∀ i, write_register s we a d i = s i) := by
  intro s a v tr ha hv htr
  have hread : ∀ (t : RegFileState), read_register t a = t a := by
    intro t
    unfold read_register
    rw [if_neg ha]
  have hwrite : write_register s CTRL_REG_WRITE_YES a v a = v := by
    unfold write_register
    rw [if_pos ⟨rfl, rfl, ha⟩]
    exact Nat.mod_eq_of_lt hv
  have hkeep : ∀ (t : RegFileState) (tr' : List PortInput),
      (∀ p ∈ tr', ¬(p.rd_we = CTRL_REG_WRITE_YES ∧ p.rd_addr = a)) →
      runTrace t tr' a = t a := by
    intro t tr' h
    induction tr' generalizing t with
    | nil => rfl
    | cons p rest ih =>
      have hp := h p (List.mem_cons_self p rest)
      have hrest : ∀ q ∈ rest, ¬(q.rd_we = CTRL_REG_WRITE_YES ∧ q.rd_addr = a) :=
        fun q hq => h q (List.mem_cons_of_mem p hq)
      unfold runTrace
      rw [ih _ hrest]
      unfold write_register
      rw [if_neg]
      rintro ⟨h1, rfl, -⟩
      exact hp ⟨h1, rfl⟩
  refine ⟨⟨?_, ?_, rfl⟩, ?_, ?_, ?_⟩
  · simp [cycle, hread]
  · simp [cycle, hread]
  · rw [hread, hwrite]
  · rw [hread, hkeep _ tr htr, hwrite]
  · intro we d hwe i
    unfold write_register
    rw [if_neg]
    rintro ⟨h1, -, -⟩
    exact hwe h1

/-- C5 witness: the spec's concrete scenario — write 42 to register 5, run
one idle cycle, and read 42 back. -/
theorem c5_write_then_read_witness :
    read_register
      (runTrace
        (write_register (fun _ => 0) CTRL_REG_WRITE_YES ⟨5, by norm_num [NUM_REGS]⟩ 42)
        [⟨CTRL_REG_WRITE_NO, ⟨0, by norm_num [NUM_REGS]⟩, 0⟩])
      ⟨5, by norm_num [NUM_REGS]⟩ = 42 :=
  (c5_write_then_read_ordering (fun _ => 0) ⟨5, by norm_num [NUM_REGS]⟩ 42
    [⟨CTRL_REG_WRITE_NO, ⟨0, by norm_num [NUM_REGS]⟩, 0⟩]
    (by norm_num) (by norm_num [REG_WIDTH]) (by decide)).2.2.1

/-- C9: `get_register` signals the out-of-range error exactly for an index
outside `[0, 31]`, and succeeds on an in-range index, returning the handle
of the storage cell with that index. -/
theorem c9_get_register_bounds :
    ∀ index : Int,
      ((get_register index).isOk = false ↔ (index < 0 ∨ (NUM_REGS : Int) ≤ index)) ∧
      (∀ (h1 : 0 ≤ index) (h2 : index < (NUM_REGS : Int)),
        get_register index = .ok ⟨index.toNat, by omega⟩) := by
  intro index
  constructor
  · unfold get_register
    split <;> rename_i h <;> simp [Except.isOk, Except.toBool, h]
  · intro h1 h2
    unfold get_register
    rw [dif_neg]
    omega

/-- C9 witness: `get_register 32` fails and `get_register 7` returns cell 7. -/
theorem c9_get_register_witness :
    (get_register 32).isOk = false ∧
      get_register 7 = .ok ⟨7, by norm_num [NUM_REGS]⟩ :=
  ⟨(c9_get_register_bounds 32).1.mpr (by norm_num [NUM_REGS]),
   (c9_get_register_bounds 7).2 (by norm_num) (by norm_num [NUM_REGS])⟩

/-! ### Decode evaluation helpers -/

/-- Unfolding of `decode_instr` on a word whose opcode is the branch
opcode. -/
lemma decode_instr_branch (w : Nat) (hop : extract_opcode w = OPCODE_BRANCH) :
    decode_instr w =
      { opcode := OPCODE_BRANCH, rd := extract_rd w, rs1 := extract_rs1 w,
        rs2 := extract_rs2 w, funct3 := extract_funct3 w, funct7 := extract_funct7 w,
        imm := extract_imm_b w, type := "B",
        mnemonic := dictGet mnemonic_map (OPCODE_BRANCH, extract_funct3 w, 0) "UNKNOWN" } := by
  simp only [decode_instr, get_mnemonic, hop]
  norm_num [OPCODE_BRANCH, OPCODE_R_TYPE, OPCODE_ADDI, OPCODE_ANDI, OPCODE_ORI, OPCODE_XORI,
    OPCODE_SLTI, OPCODE_SLTIU, OPCODE_SLLI, OPCODE_SRLI, OPCODE_SRAI, OPCODE_JALR,
    OPCODE_LOAD, OPCODE_STORE]
  rw [if_neg (by decide : ¬("B" = "R"))]

/-- A lookup with a key bound in no entry returns `none`. -/
lemma dictFind_eq_none_of (l : List ((Nat × Nat × Nat) × String)) (k : Nat × Nat × Nat)
    (h : ∀ e ∈ l, e.1 ≠ k) : dictFind l k = none := by
  induction l with
  | nil => rfl
  | cons e rest ih =>
    have hrest : ∀ q ∈ rest, q.1 ≠ k := fun q hq => h q (List.mem_cons_of_mem e hq)
    simp only [dictFind, ih hrest]
    rw [if_neg (h e (List.mem_cons_self e rest))]

/-! ### Claims C1 and C2: the B/J immediate encoders misplace bits -/

/-- C1 (failing input): encoding the B-type instruction with
`rs1 = 1, rs2 = 2, imm = 2048, funct3 = 0` and the branch opcode and
decoding the result yields `imm = -4096`, not `2048`; round-trip fails.
Encoding the J-type instruction with `rd = 1, imm = 4096` and the JAL
opcode and decoding yields `imm = 0`, not `4096`. -/
theorem c1_roundtrip_fails_for_b_and_j :
    (decode_instr (BType.encode ⟨1, 2, 2048, 0, OPCODE_BRANCH⟩)).imm = -4096 ∧
    ((-4096 : Int) ≠ 2048) ∧
    (decode_instr (JType.encode ⟨1, 4096, OPCODE_JAL⟩)).imm = 0 ∧
    ((0 : Int) ≠ 4096) := by
  refine ⟨?_, by decide, ?_, by decide⟩
  · have h : (decode_instr (BType.encode ⟨1, 2, 2048, 0, OPCODE_BRANCH⟩)).imm =
        sign_extend 4096 13 := rfl
    rw [h, sign_extend_eq]
    decide
  · have h : (decode_instr (JType.encode ⟨1, 4096, OPCODE_JAL⟩)).imm =
        sign_extend 0 21 := rfl
    rw [h, sign_extend_eq]
    decide

/-- C2 (failing input): for the B-type instruction with `imm = 2048`
(immediate bit 11 set, bit 12 clear) the encoder sets word bit 31 — which
the claim reserves for immediate bit 12 — and clears word bit 7 — which
the claim reserves for immediate bit 11.  For the J-type instruction with
`imm = 4096` (immediate bit 12 set) the encoder leaves word bits 19..12
all zero although the claim places immediate bits 19..12 there. -/
theorem c2_bj_bit_placement_wrong :
    ((BType.encode ⟨1, 2, 2048, 0, OPCODE_BRANCH⟩ >>> 31) &&& 1 = 1 ∧
      pyAnd (pyShr (2048 : Int) 12) 1 = 0) ∧
    ((BType.encode ⟨1, 2, 2048, 0, OPCODE_BRANCH⟩ >>> 7) &&& 1 = 0 ∧
      pyAnd (pyShr (2048 : Int) 11) 1 = 1) ∧
    ((JType.encode ⟨1, 4096, OPCODE_JAL⟩ >>> 12) &&& 0xFF = 0 ∧
      pyAnd (pyShr (4096 : Int) 12) 0xFF = 1) := by
  decide

/-! ### Claim C3: the mnemonic table and the SRLI/SRAI key collision -/

/-- C3 (counterexample): the word encoding `SRLI x1, x1, 1` — I-type,
`opcode = 0b0010011`, `funct3 = 0b101`, upper immediate bits all zero —
decodes to mnemonic `"SRAI"`, not `"SRLI"`: in the dict literal the later
`SRAI` binding shadows the `SRLI` binding for the shared key. -/
theorem c3_srli_resolves_to_srai :
    (decode_instr (IType.encode ⟨1, 1, 1, FUNCT3_SRL_SRA, OPCODE_SRLI⟩)).mnemonic = "SRAI" ∧
      "SRAI" ≠ "SRLI" := by
  constructor
  · rfl
  · decide

/-- C3 (amended): the dict literal writes 37 entries defining only 36
distinct keys; the shared key `(0b0010011, 0b101, 0)` of the SRLI and
SRAI entries resolves to `"SRAI"` (the later binding); every one of the
other 35 keys resolves to its own mnemonic; and any unbound triple
yields `"UNKNOWN"`. -/
theorem c3_mnemonic_table :
    mnemonic_map.length = 37 ∧
    (mnemonic_map.map Prod.fst).dedup.length = 36 ∧
    dictGet mnemonic_map (OPCODE_SRLI, FUNCT3_SRL_SRA, 0) "UNKNOWN" = "SRAI" ∧
    (∀ k : Nat × Nat × Nat, k ∉ mnemonic_map.map Prod.fst →
      dictGet mnemonic_map k "UNKNOWN" = "UNKNOWN") ∧
    (dictGet mnemonic_map (OPCODE_R_TYPE, FUNCT3_ADD_SUB, FUNCT7_NORMAL) "UNKNOWN" = "ADD" ∧
     dictGet mnemonic_map (OPCODE_R_TYPE, FUNCT3_ADD_SUB, FUNCT7_ALT) "UNKNOWN" = "SUB" ∧
     dictGet mnemonic_map (OPCODE_R_TYPE, FUNCT3_SLL, FUNCT7_NORMAL) "UNKNOWN" = "SLL" ∧
     dictGet mnemonic_map (OPCODE_R_TYPE, FUNCT3_SLT, FUNCT7_NORMAL) "UNKNOWN" = "SLT" ∧
     dictGet mnemonic_map (OPCODE_R_TYPE, FUNCT3_SLTU, FUNCT7_NORMAL) "UNKNOWN" = "SLTU" ∧
     dictGet mnemonic_map (OPCODE_R_TYPE, FUNCT3_XOR, FUNCT7_NORMAL) "UNKNOWN" = "XOR" ∧
     dictGet mnemonic_map (OPCODE_R_TYPE, FUNCT3_SRL_SRA, FUNCT7_NORMAL) "UNKNOWN" = "SRL" ∧
     dictGet mnemonic_map (OPCODE_R_TYPE, FUNCT3_SRL_SRA, FUNCT7_ALT) "UNKNOWN" = "SRA" ∧
     dictGet mnemonic_map (OPCODE_R_TYPE, FUNCT3_OR, FUNCT7_NORMAL) "UNKNOWN" = "OR" ∧
     dictGet mnemonic_map (OPCODE_R_TYPE, FUNCT3_AND, FUNCT7_NORMAL) "UNKNOWN" = "AND") ∧
    (dictGet mnemonic_map (OPCODE_ADDI, FUNCT3_ADD_SUB, 0) "UNKNOWN" = "ADDI" ∧
     dictGet mnemonic_map (OPCODE_SLLI, FUNCT3_SLL, 0) "UNKNOWN" = "SLLI" ∧
     dictGet mnemonic_map (OPCODE_SLTI, FUNCT3_SLT, 0) "UNKNOWN" = "SLTI" ∧
     dictGet mnemonic_map (OPCODE_SLTIU, FUNCT3_SLTU, 0) "UNKNOWN" = "SLTIU" ∧
     dictGet mnemonic_map (OPCODE_XORI, FUNCT3_XOR, 0) "UNKNOWN" = "XORI" ∧
     dictGet mnemonic_map (OPCODE_ORI, FUNCT3_OR, 0) "UNKNOWN" = "ORI" ∧
     dictGet mnemonic_map (OPCODE_ANDI, FUNCT3_AND, 0) "UNKNOWN" = "ANDI") ∧
    (dictGet mnemonic_map (OPCODE_LOAD, FUNCT3_LB, 0) "UNKNOWN" = "LB" ∧
     dictGet mnemonic_map (OPCODE_LOAD, FUNCT3_LH, 0) "UNKNOWN" = "LH" ∧
     dictGet mnemonic_map (OPCODE_LOAD, FUNCT3_LW, 0) "UNKNOWN" = "LW" ∧
     dictGet mnemonic_map (OPCODE_LOAD, FUNCT3_LBU, 0) "UNKNOWN" = "LBU" ∧
     dictGet mnemonic_map (OPCODE_LOAD, FUNCT3_LHU, 0) "UNKNOWN" = "LHU") ∧
    (dictGet mnemonic_map (OPCODE_STORE, FUNCT3_SB, 0) "UNKNOWN" = "SB" ∧
     dictGet mnemonic_map (OPCODE_STORE, FUNCT3_SH, 0) "UNKNOWN" = "SH" ∧
     dictGet mnemonic_map (OPCODE_STORE, FUNCT3_SW, 0) "UNKNOWN" = "SW") ∧
    (dictGet mnemonic_map (OPCODE_BRANCH, FUNCT3_BEQ, 0) "UNKNOWN" = "BEQ" ∧
     dictGet mnemonic_map (OPCODE_BRANCH, FUNCT3_BNE, 0) "UNKNOWN" = "BNE" ∧
     dictGet mnemonic_map (OPCODE_BRANCH, FUNCT3_BLT, 0) "UNKNOWN" = "BLT" ∧
     dictGet mnemonic_map (OPCODE_BRANCH, FUNCT3_BGE, 0) "UNKNOWN" = "BGE" ∧
     dictGet mnemonic_map (OPCODE_BRANCH, FUNCT3_BLTU, 0) "UNKNOWN" = "BLTU" ∧
     dictGet mnemonic_map (OPCODE_BRANCH, FUNCT3_BGEU, 0) "UNKNOWN" = "BGEU") ∧
    (dictGet mnemonic_map (OPCODE_JAL, 0, 0) "UNKNOWN" = "JAL" ∧
     dictGet mnemonic_map (OPCODE_JALR, FUNCT3_ADD_SUB, 0) "UNKNOWN" = "JALR" ∧
     dictGet mnemonic_map (OPCODE_LUI, 0, 0) "UNKNOWN" = "LUI" ∧
     dictGet mnemonic_map (OPCODE_AUIPC, 0, 0) "UNKNOWN" = "AUIPC") := by
  refine ⟨by decide, by decide, by decide, ?_, by decide, by decide, by decide, by decide,
    by decide, by decide⟩
  intro k hk
  unfold dictGet
  rw [dictFind_eq_none_of mnemonic_map k ?_]
  · rfl
  · intro e he hek
    exact hk (hek ▸ List.mem_map_of_mem Prod.fst he)

/-- C3 witness: an unbound triple — here branch opcode with funct3 `0b010`
— yields `"UNKNOWN"`. -/
theorem c3_mnemonic_table_witness :
    dictGet mnemonic_map (OPCODE_BRANCH, 0b010, 0) "UNKNOWN" = "UNKNOWN" :=
  c3_mnemonic_table.2.2.2.1 (OPCODE_BRANCH, 0b010, 0) (by decide)

/-! ### Claim C10: recognized opcode with unknown mnemonic -/

/-- C10: every word with the branch opcode and funct3 `0b010` or `0b011`
decodes to type tag `"B"` — a nonempty tag — while its mnemonic is
`"UNKNOWN"`, so `"UNKNOWN"` does not imply an unrecognized opcode. -/
theorem c10_branch_unknown_mnemonic :
    ∀ w : Nat, extract_opcode w = OPCODE_BRANCH →
      (extract_funct3 w = 0b010 ∨ extract_funct3 w = 0b011) →
      (decode_instr w).type = "B" ∧ (decode_instr w).mnemonic = "UNKNOWN" ∧
        (decode_instr w).type ≠ "" := by
  intro w hop hf3
  rw [decode_instr_branch w hop]
  rcases hf3 with h | h <;> rw [h]
  · exact ⟨rfl,
      show dictGet mnemonic_map (OPCODE_BRANCH, 2, 0) "UNKNOWN" = "UNKNOWN" from by decide,
      show ("B" : String) ≠ "" from by decide⟩
  · exact ⟨rfl,
      show dictGet mnemonic_map (OPCODE_BRANCH, 3, 0) "UNKNOWN" = "UNKNOWN" from by decide,
      show ("B" : String) ≠ "" from by decide⟩

/-- C10 witness: the word `0x2063` (branch opcode, funct3 `0b010`) decodes
to type `"B"` with mnemonic `"UNKNOWN"`. -/
theorem c10_branch_unknown_mnemonic_witness :
    (decode_instr 0x2063).type = "B" ∧ (decode_instr 0x2063).mnemonic = "UNKNOWN" ∧
      (decode_instr 0x2063).type ≠ "" :=
  c10_branch_unknown_mnemonic 0x2063 (by decide) (Or.inl (by decide))

/-! ### Claim C6: sign extension -/

/-- C6: an I-immediate field whose bit 11 is set decodes to the negative
value `pattern - 4096` (in particular a field of `0xFFF` decodes to `-1`),
and in general `sign_extend` first masks its input to `nbits` bits and
then returns it unchanged when bit `nbits - 1` is clear, or fills the
high bits (`v | ~mask`, arithmetically `v - 2 ^ nbits`) when it is set. -/
theorem c6_sign_extension :
    (∀ w : Nat, ((w >>> IMM_I_SHIFT) &&& IMM_I_MASK).testBit 11 = true →
      extract_imm_i w = (((w >>> IMM_I_SHIFT) &&& IMM_I_MASK : Nat) : Int) - 4096 ∧
        extract_imm_i w < 0) ∧
    (∀ w : Nat, (w >>> IMM_I_SHIFT) &&& IMM_I_MASK = 0xFFF → extract_imm_i w = -1) ∧
    (∀ value nbits : Nat, 0 < nbits →
      ((value % 2 ^ nbits).testBit (nbits - 1) = false →
        sign_extend value nbits = ((value % 2 ^ nbits : Nat) : Int)) ∧
      ((value % 2 ^ nbits).testBit (nbits - 1) = true →
        sign_extend value nbits = ((value % 2 ^ nbits : Nat) : Int) - ((2 ^ nbits : Nat) : Int))) := by
  refine ⟨?_, ?_, ?_⟩
  · intro w hbit
    have hdef : extract_imm_i w = sign_extend ((w >>> IMM_I_SHIFT) &&& IMM_I_MASK) 12 := rfl
    set p := (w >>> IMM_I_SHIFT) &&& IMM_I_MASK with hp
    have hle : p ≤ IMM_I_MASK := Nat.and_le_right
    have hlt : p < 2 ^ 12 := by
      norm_num [IMM_I_MASK] at hle
      omega
    have hmod : p % 2 ^ 12 = p := Nat.mod_eq_of_lt hlt
    rw [hdef, sign_extend_eq, hmod, if_pos hbit]
    norm_num at hlt ⊢
    omega
  · intro w h
    have hdef : extract_imm_i w = sign_extend ((w >>> IMM_I_SHIFT) &&& IMM_I_MASK) 12 := rfl
    rw [hdef, h, sign_extend_eq]
    decide
  · intro value nbits hn
    constructor <;> intro hbit <;> rw [sign_extend_eq, hbit] <;> simp

/-- C6 witness: the word `0xFFF00000` has I-immediate field `0xFFF`, which
decodes to `-1`; its field has bit 11 set and decodes to `0xFFF - 4096`. -/
theorem c6_sign_extension_witness :
    extract_imm_i 0xFFF00000 = -1 ∧
      extract_imm_i 0xFFF00000 =
        (((0xFFF00000 >>> IMM_I_SHIFT) &&& IMM_I_MASK : Nat) : Int) - 4096 :=
  ⟨c6_sign_extension.2.1 0xFFF00000 (by decide),
   (c6_sign_extension.1 0xFFF00000 (by decide)).1⟩

/-! ### Claim C7: decode is total and tags unknown opcodes -/

/-- C7: `decode_instr` is a total function, and on any word whose opcode
is none of the recognized RV32I opcodes it returns the record with the
verbatim extracted register and funct fields, `imm = 0`, an empty type
tag and mnemonic `"UNKNOWN"`. -/
theorem c7_decode_unknown_opcode :
    ∀ w : Nat,
      extract_opcode w ∉
        [OPCODE_R_TYPE, OPCODE_ADDI, OPCODE_LOAD, OPCODE_STORE, OPCODE_BRANCH,
         OPCODE_LUI, OPCODE_AUIPC, OPCODE_JAL, OPCODE_JALR] →
      decode_instr w =
        { opcode := extract_opcode w, rd := extract_rd w, rs1 := extract_rs1 w,
          rs2 := extract_rs2 w, funct3 := extract_funct3 w, funct7 := extract_funct7 w,
          imm := 0, type := "", mnemonic := "UNKNOWN" } := by
  intro w h
  have h1 : ¬(extract_opcode w = OPCODE_R_TYPE) := fun hh => h (by rw [hh]; decide)
  have h2 : ¬(extract_opcode w ∈ [OPCODE_ADDI, OPCODE_ANDI, OPCODE_ORI, OPCODE_XORI,
      OPCODE_SLTI, OPCODE_SLTIU, OPCODE_SLLI, OPCODE_SRLI, OPCODE_SRAI, OPCODE_JALR,
      OPCODE_LOAD]) := by
    intro hh
    apply h
    simp only [List.mem_cons, List.not_mem_nil, or_false] at hh ⊢
    rcases hh with hh | hh | hh | hh | hh | hh | hh | hh | hh | hh | hh <;> rw [hh] <;> decide
  have h3 : ¬(extract_opcode w = OPCODE_STORE) := fun hh => h (by rw [hh]; decide)
  have h4 : ¬(extract_opcode w = OPCODE_BRANCH) := fun hh => h (by rw [hh]; decide)
  have h5 : ¬(extract_opcode w ∈ [OPCODE_LUI, OPCODE_AUIPC]) := by
    intro hh
    apply h
    simp only [List.mem_cons, List.not_mem_nil, or_false] at hh ⊢
    rcases hh with hh | hh <;> rw [hh] <;> decide
  have h6 : ¬(extract_opcode w = OPCODE_JAL) := fun hh => h (by rw [hh]; decide)
  have hall : ∀ e ∈ mnemonic_map,
      e.1.1 ∈ [OPCODE_R_TYPE, OPCODE_ADDI, OPCODE_LOAD, OPCODE_STORE, OPCODE_BRANCH,
        OPCODE_LUI, OPCODE_AUIPC, OPCODE_JAL, OPCODE_JALR] := by decide
  have hm : dictGet mnemonic_map (extract_opcode w, extract_funct3 w, 0) "UNKNOWN"
      = "UNKNOWN" := by
    unfold dictGet
    rw [dictFind_eq_none_of]
    · rfl
    · intro e he hek
      have hmem := hall e he
      rw [hek] at hmem
      simp only at hmem
      exact h hmem
  simp only [decode_instr, get_mnemonic]
  rw [if_neg h1, if_neg h2, if_neg h3, if_neg h4, if_neg h5, if_neg h6,
    if_neg (by decide : ¬("" = "R")), hm]

/-- C7 witness: the all-zero word has opcode 0, which is unrecognized, and
decodes to the empty type tag with mnemonic `"UNKNOWN"` and `imm = 0`. -/
theorem c7_decode_unknown_opcode_witness :
    decode_instr 0 =
      { opcode := extract_opcode 0, rd := extract_rd 0, rs1 := extract_rs1 0,
        rs2 := extract_rs2 0, funct3 := extract_funct3 0, funct7 := extract_funct7 0,
        imm := 0, type := "", mnemonic := "UNKNOWN" } :=
  c7_decode_unknown_opcode 0 (by decide)

/-! ### Claim C8: encode's opcode invariant and field masking -/

/-- C8: for every format, the low 7 bits of the encoded word equal the
instruction's opcode (a 7-bit field), and every field other than the
opcode is reduced modulo `2 ^ width` of its declared bit width before
placement — oversized or negative values are wrapped, never rejected. -/
theorem c8_encode_opcode_and_masking :
    (∀ r : RType, (r.opcode < 2 ^ 7 → extract_opcode r.encode = r.opcode) ∧
      r.encode = RType.encode ⟨r.rd % 2 ^ 5, r.rs1 % 2 ^ 5, r.rs2 % 2 ^ 5,
        r.funct3 % 2 ^ 3, r.funct7 % 2 ^ 7, r.opcode⟩) ∧
    (∀ i : IType, (i.opcode < 2 ^ 7 → extract_opcode i.encode = i.opcode) ∧
      i.encode = IType.encode ⟨i.rd % 2 ^ 5, i.rs1 % 2 ^ 5, i.imm % 2 ^ 12,
        i.funct3 % 2 ^ 3, i.opcode⟩) ∧
    (∀ s : SType, (s.opcode < 2 ^ 7 → extract_opcode s.encode = s.opcode) ∧
      s.encode = SType.encode ⟨s.rs1 % 2 ^ 5, s.rs2 % 2 ^ 5, s.imm % 2 ^ 12,
        s.funct3 % 2 ^ 3, s.opcode⟩) ∧
    (∀ b : BType, (b.opcode < 2 ^ 7 → extract_opcode b.encode = b.opcode) ∧
      b.encode = BType.encode ⟨b.rs1 % 2 ^ 5, b.rs2 % 2 ^ 5, b.imm % 2 ^ 13,
        b.funct3 % 2 ^ 3, b.opcode⟩) ∧
    (∀ u : UType, (u.opcode < 2 ^ 7 → extract_opcode u.encode = u.opcode) ∧
      u.encode = UType.encode ⟨u.rd % 2 ^ 5, u.imm % 2 ^ 20, u.opcode⟩) ∧
    (∀ j : JType, (j.opcode < 2 ^ 7 → extract_opcode j.encode = j.opcode) ∧
      j.encode = JType.encode ⟨j.rd % 2 ^ 5, j.imm % 2 ^ 21, j.opcode⟩) := by
  refine ⟨?_, ?_, ?_, ?_, ?_, ?_⟩
  · intro r
    constructor
    · intro hop
      unfold extract_opcode RType.encode
      simp only [OPCODE_SHIFT, OPCODE_MASK, RD_SHIFT, FUNCT3_SHIFT, RS1_SHIFT, RS2_SHIFT,
        FUNCT7_SHIFT, Nat.shiftRight_zero]
      rw [Nat.land_assoc, (by decide : (0xFFFFFFFF : Nat) &&& 127 = 127)]
      simp only [land_lor_right]
      rw [shl_land_127 _ 7 (by norm_num), shl_land_127 _ 12 (by norm_num),
        shl_land_127 _ 15 (by norm_num), shl_land_127 _ 20 (by norm_num),
        shl_land_127 _ 25 (by norm_num)]
      simp only [Nat.or_zero]
      rw [land_ones _ 127 7 (by norm_num)]
      norm_num at hop
      omega
    · unfold RType.encode
      dsimp only
      rw [land_mod r.rd RD_MASK 5 (by norm_num [RD_MASK]),
        land_mod r.rs1 RS1_MASK 5 (by norm_num [RS1_MASK]),
        land_mod r.rs2 RS2_MASK 5 (by norm_num [RS2_MASK]),
        land_mod r.funct3 FUNCT3_MASK 3 (by norm_num [FUNCT3_MASK]),
        land_mod r.funct7 FUNCT7_MASK 7 (by norm_num [FUNCT7_MASK])]
  · intro i
    constructor
    · intro hop
      unfold extract_opcode IType.encode
      simp only [OPCODE_SHIFT, OPCODE_MASK, RD_SHIFT, FUNCT3_SHIFT, RS1_SHIFT, IMM_I_SHIFT,
        Nat.shiftRight_zero]
      rw [Nat.land_assoc, (by decide : (0xFFFFFFFF : Nat) &&& 127 = 127)]
      simp only [land_lor_right]
      rw [shl_land_127 _ 7 (by norm_num), shl_land_127 _ 12 (by norm_num),
        shl_land_127 _ 15 (by norm_num), shl_land_127 _ 20 (by norm_num)]
      simp only [Nat.or_zero]
      rw [land_ones _ 127 7 (by norm_num)]
      norm_num at hop
      omega
    · unfold IType.encode
      dsimp only
      rw [land_mod i.rd RD_MASK 5 (by norm_num [RD_MASK]),
        land_mod i.rs1 RS1_MASK 5 (by norm_num [RS1_MASK]),
        land_mod i.funct3 FUNCT3_MASK 3 (by norm_num [FUNCT3_MASK]),
        pyAnd_emod i.imm 12 12 IMM_I_MASK (by norm_num [IMM_I_MASK]) (by norm_num)]
  · intro s
    constructor
    · intro hop
      unfold extract_opcode SType.encode
      simp only [OPCODE_SHIFT, OPCODE_MASK, IMM_S_LO_SHIFT, FUNCT3_SHIFT, RS1_SHIFT,
        RS2_SHIFT, IMM_S_HI_SHIFT, Nat.shiftRight_zero]
      rw [Nat.land_assoc, (by decide : (0xFFFFFFFF : Nat) &&& 127 = 127)]
      simp only [land_lor_right]
      rw [shl_land_127 _ 7 (by norm_num), shl_land_127 _ 12 (by norm_num),
        shl_land_127 _ 15 (by norm_num), shl_land_127 _ 20 (by norm_num),
        shl_land_127 _ 25 (by norm_num)]
      simp only [Nat.or_zero]
      rw [land_ones _ 127 7 (by norm_num)]
      norm_num at hop
      omega
    · unfold SType.encode
      dsimp only
      rw [land_mod s.rs1 RS1_MASK 5 (by norm_num [RS1_MASK]),
        land_mod s.rs2 RS2_MASK 5 (by norm_num [RS2_MASK]),
        land_mod s.funct3 FUNCT3_MASK 3 (by norm_num [FUNCT3_MASK]),
        pyAnd_emod s.imm 12 5 IMM_S_LO_MASK (by norm_num [IMM_S_LO_MASK]) (by norm_num),
        pyAnd_pyShr_emod s.imm 12 5 7 IMM_S_HI_MASK (by norm_num [IMM_S_HI_MASK])
          (by norm_num)]
  · intro b
    constructor
    · intro hop
      unfold extract_opcode BType.encode
      simp only [OPCODE_SHIFT, OPCODE_MASK, IMM_B_BIT11_SHIFT, IMM_B_BITS4_1_SHIFT,
        FUNCT3_SHIFT, RS1_SHIFT, RS2_SHIFT, IMM_B_BITS10_5_SHIFT, IMM_B_BIT12_SHIFT,
        Nat.shiftRight_zero]
      rw [Nat.land_assoc, (by decide : (0xFFFFFFFF : Nat) &&& 127 = 127)]
      simp only [land_lor_right]
      rw [shl_land_127 _ 7 (by norm_num), shl_land_127 _ 8 (by norm_num),
        shl_land_127 _ 12 (by norm_num), shl_land_127 _ 15 (by norm_num),
        shl_land_127 _ 20 (by norm_num), shl_land_127 _ 25 (by norm_num),
        shl_land_127 _ 31 (by norm_num)]
      simp only [Nat.or_zero]
      rw [land_ones _ 127 7 (by norm_num)]
      norm_num at hop
      omega
    · unfold BType.encode
      dsimp only
      rw [land_mod b.rs1 RS1_MASK 5 (by norm_num [RS1_MASK]),
        land_mod b.rs2 RS2_MASK 5 (by norm_num [RS2_MASK]),
        land_mod b.funct3 FUNCT3_MASK 3 (by norm_num [FUNCT3_MASK]),
        pyAnd_emod b.imm 13 1 IMM_B_BIT11_MASK (by norm_num [IMM_B_BIT11_MASK]) (by norm_num),
        pyAnd_pyShr_emod b.imm 13 1 4 IMM_B_BITS4_1_MASK (by norm_num [IMM_B_BITS4_1_MASK])
          (by norm_num),
        pyAnd_pyShr_emod b.imm 13 5 6 IMM_B_BITS10_5_MASK (by norm_num [IMM_B_BITS10_5_MASK])
          (by norm_num),
        pyAnd_pyShr_emod b.imm 13 11 1 IMM_B_BIT12_MASK (by norm_num [IMM_B_BIT12_MASK])
          (by norm_num)]
  · intro u
    constructor
    · intro hop
      unfold extract_opcode UType.encode
      simp only [OPCODE_SHIFT, OPCODE_MASK, RD_SHIFT, IMM_U_SHIFT, Nat.shiftRight_zero]
      rw [Nat.land_assoc, (by decide : (0xFFFFFFFF : Nat) &&& 127 = 127)]
      simp only [land_lor_right]
      rw [shl_land_127 _ 7 (by norm_num), shl_land_127 _ 12 (by norm_num)]
      simp only [Nat.or_zero]
      rw [land_ones _ 127 7 (by norm_num)]
      norm_num at hop
      omega
    · unfold UType.encode
      dsimp only
      rw [land_mod u.rd RD_MASK 5 (by norm_num [RD_MASK]),
        pyAnd_emod u.imm 20 20 IMM_U_MASK (by norm_num [IMM_U_MASK]) (by norm_num)]
  · intro j
    constructor
    · intro hop
      unfold extract_opcode JType.encode
      simp only [OPCODE_SHIFT, OPCODE_MASK, RD_SHIFT, IMM_J_BITS19_12_SHIFT,
        IMM_J_BIT11_SHIFT, IMM_J_BITS10_1_SHIFT, IMM_J_BIT20_SHIFT, Nat.shiftRight_zero]
      rw [Nat.land_assoc, (by decide : (0xFFFFFFFF : Nat) &&& 127 = 127)]
      simp only [land_lor_right]
      rw [shl_land_127 _ 7 (by norm_num), shl_land_127 _ 12 (by norm_num),
        shl_land_127 _ 20 (by norm_num), shl_land_127 _ 21 (by norm_num),
        shl_land_127 _ 31 (by norm_num)]
      simp only [Nat.or_zero]
      rw [land_ones _ 127 7 (by norm_num)]
      norm_num at hop
      omega
    · unfold JType.encode
      dsimp only
      rw [land_mod j.rd RD_MASK 5 (by norm_num [RD_MASK]),
        pyAnd_emod j.imm 21 8 IMM_J_BITS19_12_MASK (by norm_num [IMM_J_BITS19_12_MASK])
          (by norm_num),
        pyAnd_pyShr_emod j.imm 21 11 1 IMM_J_BIT11_MASK (by norm_num [IMM_J_BIT11_MASK])
          (by norm_num),
        pyAnd_pyShr_emod j.imm 21 1 10 IMM_J_BITS10_1_MASK (by norm_num [IMM_J_BITS10_1_MASK])
          (by norm_num),
        pyAnd_pyShr_emod j.imm 21 20 1 IMM_J_BIT20_MASK (by norm_num [IMM_J_BIT20_MASK])
          (by norm_num)]

/-- C8 witness: the ADD instruction of the spec's first concrete scenario
has a 7-bit opcode, and its encoded word's low 7 bits recover it. -/
theorem c8_encode_opcode_witness :
    extract_opcode (RType.encode ⟨1, 2, 3, 0, 0, OPCODE_R_TYPE⟩) = OPCODE_R_TYPE :=
  (c8_encode_opcode_and_masking.1 ⟨1, 2, 3, 0, 0, OPCODE_R_TYPE⟩).1 (by decide)

end Mangonel
